import Mathlib

/-
Verification of the SwasthyaSetu appointment lifecycle and authentication
service against the natural-language specification. The appointment schema,
the wait-time method, and the pre-save timestamp hook are embedded from
src/Login-RegistrationForm-MongoDB-main/src/mongodb.js; the authentication
endpoints are embedded from the Express server source. The status transition
engine and creation path are modelled from the spec where the source method
updateStatus is truncated mid-definition.
-/

namespace SwasthyaSetu

/-- Appointment status enum, from the schema field status
(mongodb.js line 137). -/
inductive Status
  | scheduled
  | confirmed
  | in_progress
  | completed
  | cancelled
  | no_show
  | rescheduled
deriving DecidableEq, Repr

/-- Urgency levels of consultationReason.urgencyLevel
(mongodb.js line 170). -/
inductive Urgency
  | Low
  | Medium
  | High
  | Emergency
deriving DecidableEq, Repr

/-- Priority levels of aiTriage.priorityLevel (mongodb.js line 185). -/
inductive PriorityLevel
  | Low
  | Medium
  | High
  | Critical
deriving DecidableEq, Repr

/-- The aiTriage sub-record fields used by the priority computation
(mongodb.js lines 178-197). -/
structure AiTriage where
  triageScore : Rat
  priorityLevel : Option PriorityLevel
deriving DecidableEq, Repr

/-- The session sub-record (mongodb.js lines 224-235); times are epoch
milliseconds. -/
structure Session where
  startTime : Option Int
  endTime : Option Int
  actualDuration : Option Int
deriving DecidableEq, Repr

/-- The scheduling sub-record (mongodb.js lines 307-335). -/
structure Scheduling where
  bookedAt : Option Int
  rescheduledFrom : Option String
  rescheduledTo : Option String
  cancellationReason : Option String
  cancellationTime : Option Int
  lastModified : Int
deriving DecidableEq, Repr

/-- The analytics sub-record (mongodb.js lines 358-367). -/
structure Analytics where
  waitTime : Option Int
deriving DecidableEq, Repr

/-- The appointment document: the fields of the schema that the lifecycle
claims mention (mongodb.js lines 75-390). -/
structure Appointment where
  appointmentId : String
  patientId : String
  doctorId : String
  appointmentDate : Int
  timeStart : String
  timeEnd : String
  status : Status
  urgencyLevel : Urgency
  aiTriage : Option AiTriage
  session : Session
  scheduling : Scheduling
  analytics : Analytics
  updatedAt : Int
  isEmergency : Bool
  priorityScore : Rat
deriving DecidableEq, Repr

/-- Wait-time method calculateWaitTime (mongodb.js lines 433-440): when both
session.startTime and scheduling.bookedAt are present, computes
floor of their difference in minutes, stores it in analytics.waitTime and
returns it; otherwise returns null and leaves the document unchanged. -/
def calculateWaitTime (a : Appointment) : Option Int × Appointment :=
  match a.session.startTime, a.scheduling.bookedAt with
  | some st, some booked =>
      let waitTime := Int.fdiv (st - booked) (1000 * 60)
      (some waitTime,
        { a with analytics := { a.analytics with waitTime := some waitTime } })
  | _, _ => (none, a)

/-- Pre-save middleware (mongodb.js lines 400-405): on every save, sets
updatedAt and scheduling.lastModified to the current time. -/
def preSave (a : Appointment) (now : Int) : Appointment :=
  { a with
      updatedAt := now
      scheduling := { a.scheduling with lastModified := now } }

/-- Modelled from the spec: the transition table of section 4.2. The source
method updateStatus (mongodb.js line 443) is truncated mid-definition, so
the table is taken from the spec. -/
def transitionTable : List (Status × Status) :=
  [(.scheduled, .confirmed), (.scheduled, .cancelled), (.scheduled, .rescheduled),
   (.confirmed, .in_progress), (.confirmed, .cancelled),
   (.confirmed, .no_show), (.confirmed, .rescheduled),
   (.in_progress, .completed), (.in_progress, .cancelled)]

/-- Modelled from the spec: whether the pair (current, target) is a legal
transition of the section 4.2 table. -/
def allowed (cur target : Status) : Bool :=
  (cur, target) ∈ transitionTable

/-- Terminal statuses: completed, cancelled, no_show, and rescheduled
(terminal for the document itself per spec section 4.2). -/
def isTerminal : Status → Bool
  | .completed => true
  | .cancelled => true
  | .no_show => true
  | .rescheduled => true
  | _ => false

/-- Transition errors of spec section 4.2 and section 7. -/
inductive TransitionError
  | IllegalTransition (src tgt : Status)
  | ValidationError (msg : String)
  | NotFound
deriving DecidableEq, Repr

/-- Modelled from the spec: side effects by target status
(spec section 4.2): in_progress sets session.startTime to now if unset;
completed sets session.endTime to now if unset, computes
session.actualDuration and analytics.waitTime; cancelled records the
reason and the cancellation time. -/
def applySideEffects (a : Appointment) (target : Status)
    (reason : Option String) (now : Int) : Appointment :=
  match target with
  | .in_progress =>
      if a.session.startTime.isNone then
        { a with session := { a.session with startTime := some now } }
      else a
  | .completed =>
      let a1 :=
        if a.session.endTime.isNone then
          { a with session := { a.session with endTime := some now } }
        else a
      let a2 :=
        match a1.session.endTime, a1.session.startTime with
        | some e, some s =>
            { a1 with session :=
                { a1.session with actualDuration := some (Int.fdiv (e - s) (1000 * 60)) } }
        | _, _ => a1
      (calculateWaitTime a2).2
  | .cancelled =>
      { a with scheduling :=
          { a.scheduling with
              cancellationReason := reason
              cancellationTime := some now } }
  | _ => a

/-- Modelled from the spec: the transition operation of section 4.2. The
source method updateStatus is truncated, so the behavior is taken from the
spec: reject pairs outside the table with IllegalTransition, require a
reason for cancelled and rescheduled targets, apply the side effects of the
target, and stamp the timestamps through the pre-save hook. -/
def transition (a : Appointment) (target : Status)
    (reason : Option String) (now : Int) : Except TransitionError Appointment :=
  if ¬ allowed a.status target then
    .error (.IllegalTransition a.status target)
  else if (target = .cancelled ∨ target = .rescheduled) ∧ reason = none then
    .error (.ValidationError "reason required")
  else
    let a1 := { a with status := target }
    .ok (preSave (applySideEffects a1 target reason now) now)

/-- Modelled from the spec: the base priority score mapped from
consultationReason.urgencyLevel (spec section 4.3); the schema only
declares priorityScore with default 0 (mongodb.js line 384). -/
def baseScore : Urgency → Rat
  | .Emergency => 100
  | .High => 75
  | .Medium => 50
  | .Low => 25

/-- Modelled from the spec: priorityScore computation of section 4.3,
max of the base score and aiTriage.triageScore * 10 when aiTriage is
present. -/
def computePriorityScore (u : Urgency) (t : Option AiTriage) : Rat :=
  match t with
  | some tr => max (baseScore u) (tr.triageScore * 10)
  | none => baseScore u

/-- Modelled from the spec: isEmergency computation of section 4.3; the
schema only declares isEmergency with default false (mongodb.js
line 380). -/
def computeIsEmergency (u : Urgency) (t : Option AiTriage) : Bool :=
  u = Urgency.Emergency ||
    (match t with
     | some tr => tr.priorityLevel = some PriorityLevel.Critical
     | none => false)

/-- The booking slot of an appointment: the tuple
(doctorId, appointmentDate, appointmentTime.start), as indexed by the
compound index at mongodb.js line 393. -/
def slot (a : Appointment) : String × Int × String :=
  (a.doctorId, a.appointmentDate, a.timeStart)

/-- Whether some non-terminal appointment of the store already holds the
slot of the candidate. -/
def slotTaken (store : List Appointment) (a : Appointment) : Bool :=
  store.any (fun b => !(isTerminal b.status) && slot b = slot a)

/-- Creation errors of spec section 6. -/
inductive CreateError
  | Validation (fields : List String)
  | Conflict
deriving DecidableEq, Repr

/-- Modelled from the spec: the creation path of section 6. No
createAppointment function exists in the source (the schema file only
declares the compound indexes), so the behavior is taken from the spec:
reject with ConflictError when the (doctorId, date, start) slot is already
held by a non-terminal appointment, otherwise insert the document with
status scheduled, the derived priority fields of section 4.3, and the
booking timestamps. -/
def createAppointment (store : List Appointment) (a : Appointment)
    (now : Int) : Except CreateError (List Appointment) :=
  if slotTaken store a then
    .error .Conflict
  else
    let doc := preSave
      { a with
          status := Status.scheduled
          priorityScore := computePriorityScore a.urgencyLevel a.aiTriage
          isEmergency := computeIsEmergency a.urgencyLevel a.aiTriage
          scheduling := { a.scheduling with bookedAt := some now } } now
    .ok (doc :: store)

/-- Modelled from the spec: applying a transition to the appointment of the
store with the given appointmentId (section 6, transition by id). -/
def transitionStore (store : List Appointment) (id : String)
    (target : Status) (reason : Option String) (now : Int) :
    Except TransitionError (List Appointment) :=
  match store with
  | [] => .error .NotFound
  | a :: rest =>
      if a.appointmentId = id then
        match transition a target reason now with
        | .ok a2 => .ok (a2 :: rest)
        | .error e => .error e
      else
        match transitionStore rest id target reason now with
        | .ok rest2 => .ok (a :: rest2)
        | .error e => .error e

/-- Slot exclusivity invariant: no two non-terminal appointments of the
store share the identical (doctorId, appointmentDate,
appointmentTime.start) slot. -/
def SlotExclusive (store : List Appointment) : Prop :=
  store.Pairwise (fun a b =>
    isTerminal a.status = true ∨ isTerminal b.status = true ∨ slot a ≠ slot b)

/-- Candidate input for validation: every schema field that carries a
required flag or a numeric range (mongodb.js lines 75-390), optional to
model absence. -/
structure Candidate where
  appointmentId : Option String
  patientId : Option String
  doctorId : Option String
  appointmentDate : Option Int
  timeStart : Option String
  timeEnd : Option String
  consultationMode : Option String
  specialty : Option String
  chiefComplaint : Option String
  paymentAmount : Option Rat
  triageScore : Option Rat
  aiConfidence : Option Rat
  patientRating : Option Rat
  doctorRating : Option Rat
  technicalRating : Option Rat
deriving DecidableEq, Repr

/-- One error entry when a required field is absent. -/
def requireField (present : Bool) (field : String) : List String :=
  if present then [] else [field]

/-- One error entry when a present numeric field lies outside its
range; absent fields are not range-checked, as in the schema min/max
validators. -/
def rangeField (v : Option Rat) (lo hi : Rat) (field : String) : List String :=
  match v with
  | some x => if lo ≤ x ∧ x ≤ hi then [] else [field]
  | none => []

/-- Field-level validation embedded from the schema declarations
(mongodb.js lines 75-390): required flags on appointmentId, patientId,
doctorId, appointmentDate, appointmentTime.start, appointmentTime.end,
consultationMode, specialty, consultationReason.chiefComplaint and
payment.amount (min 0); ranges aiTriage.triageScore in [0,10],
aiTriage.aiConfidence in [0,1], feedback ratings in [1,5]. Returns the
list of violated fields; pure, mutates nothing. -/
def validate (c : Candidate) : List String :=
  requireField c.appointmentId.isSome "appointmentId" ++
  requireField c.patientId.isSome "patientId" ++
  requireField c.doctorId.isSome "doctorId" ++
  requireField c.appointmentDate.isSome "appointmentDate" ++
  requireField c.timeStart.isSome "appointmentTime.start" ++
  requireField c.timeEnd.isSome "appointmentTime.end" ++
  requireField c.consultationMode.isSome "consultationMode" ++
  requireField c.specialty.isSome "specialty" ++
  requireField c.chiefComplaint.isSome "consultationReason.chiefComplaint" ++
  (match c.paymentAmount with
   | some x => if 0 ≤ x then [] else ["payment.amount"]
   | none => ["payment.amount"]) ++
  rangeField c.triageScore 0 10 "aiTriage.triageScore" ++
  rangeField c.aiConfidence 0 1 "aiTriage.aiConfidence" ++
  rangeField c.patientRating 1 5 "feedback.patientRating" ++
  rangeField c.doctorRating 1 5 "feedback.doctorRating" ++
  rangeField c.technicalRating 1 5 "feedback.technicalRating"

/-- Helper: terminal statuses have no outbound transition in the table. -/
theorem terminal_not_allowed (s t : Status) :
    isTerminal s = true → allowed s t = false := by
  cases s <;> cases t <;> decide

/-- Helper: allowed agrees with membership in the transition table. -/
theorem allowed_iff_mem (s t : Status) :
    allowed s t = true ↔ (s, t) ∈ transitionTable := by
  simp [allowed]

/-- Helper: the first component of calculateWaitTime depends only on
session.startTime and scheduling.bookedAt. -/
theorem calculateWaitTime_fst (a : Appointment) :
    (calculateWaitTime a).1 =
      match a.session.startTime, a.scheduling.bookedAt with
      | some st, some bk => some (Int.fdiv (st - bk) (1000 * 60))
      | _, _ => none := by
  unfold calculateWaitTime
  rcases h1 : a.session.startTime with _ | st <;>
    rcases h2 : a.scheduling.bookedAt with _ | bk <;> simp

/-- Helper: the second component of calculateWaitTime changes only the
analytics sub-record. -/
theorem calculateWaitTime_fields (a : Appointment) :
    (calculateWaitTime a).2.doctorId = a.doctorId ∧
    (calculateWaitTime a).2.appointmentDate = a.appointmentDate ∧
    (calculateWaitTime a).2.timeStart = a.timeStart ∧
    (calculateWaitTime a).2.priorityScore = a.priorityScore ∧
    (calculateWaitTime a).2.isEmergency = a.isEmergency ∧
    (calculateWaitTime a).2.status = a.status ∧
    (calculateWaitTime a).2.session = a.session ∧
    (calculateWaitTime a).2.scheduling = a.scheduling := by
  unfold calculateWaitTime
  rcases h1 : a.session.startTime with _ | st <;>
    rcases h2 : a.scheduling.bookedAt with _ | b <;> simp

/-- Helper: applySideEffects never changes the slot fields, the priority
fields, or the status. -/
theorem applySideEffects_fields (a : Appointment) (t : Status)
    (r : Option String) (n : Int) :
    (applySideEffects a t r n).doctorId = a.doctorId ∧
    (applySideEffects a t r n).appointmentDate = a.appointmentDate ∧
    (applySideEffects a t r n).timeStart = a.timeStart ∧
    (applySideEffects a t r n).priorityScore = a.priorityScore ∧
    (applySideEffects a t r n).isEmergency = a.isEmergency ∧
    (applySideEffects a t r n).status = a.status := by
  cases t <;> simp only [applySideEffects]
  case in_progress => split <;> simp
  case completed =>
    constructor
    · rw [(calculateWaitTime_fields _).1]
      split <;> split <;> simp_all
    constructor
    · rw [(calculateWaitTime_fields _).2.1]
      split <;> split <;> simp_all
    constructor
    · rw [(calculateWaitTime_fields _).2.2.1]
      split <;> split <;> simp_all
    constructor
    · rw [(calculateWaitTime_fields _).2.2.2.1]
      split <;> split <;> simp_all
    constructor
    · rw [(calculateWaitTime_fields _).2.2.2.2.1]
      split <;> split <;> simp_all
    · rw [(calculateWaitTime_fields _).2.2.2.2.2.1]
      split <;> split <;> simp_all
  all_goals simp

/-- Helper: preSave changes only updatedAt and scheduling.lastModified. -/
theorem preSave_fields (a : Appointment) (n : Int) :
    (preSave a n).doctorId = a.doctorId ∧
    (preSave a n).appointmentDate = a.appointmentDate ∧
    (preSave a n).timeStart = a.timeStart ∧
    (preSave a n).priorityScore = a.priorityScore ∧
    (preSave a n).isEmergency = a.isEmergency ∧
    (preSave a n).status = a.status ∧
    (preSave a n).updatedAt = n ∧
    (preSave a n).scheduling.lastModified = n := by
  simp [preSave]

/-- Helper: a successful transition decomposes into the guard checks plus
the side-effect and pre-save pipeline. -/
theorem transition_ok_elim {a : Appointment} {t : Status} {r : Option String}
    {n : Int} {a2 : Appointment}
    (h : transition a t r n = .ok a2) :
    allowed a.status t = true ∧
    ¬ ((t = Status.cancelled ∨ t = Status.rescheduled) ∧ r = none) ∧
    a2 = preSave (applySideEffects { a with status := t } t r n) n := by
  unfold transition at h
  by_cases h1 : allowed a.status t
  · by_cases h2 : (t = Status.cancelled ∨ t = Status.rescheduled) ∧ r = none
    · simp [h1, h2] at h
    · simp [h1, h2] at h
      exact ⟨h1, h2, h.symm⟩
  · simp [h1] at h

/-- Helper: a failed guard yields the IllegalTransition error. -/
theorem transition_illegal {a : Appointment} {t : Status} {r : Option String}
    {n : Int} (h : allowed a.status t = false) :
    transition a t r n = .error (.IllegalTransition a.status t) := by
  simp [transition, h]

/-- C1: the transition operation succeeds only for pairs of the section 4.2
table, returns IllegalTransition for every pair outside it, and never
succeeds once the status is completed, cancelled or no_show. -/
theorem C1_transition_table (a : Appointment) (target : Status)
    (reason : Option String) (now : Int) :
    ((∃ a2, transition a target reason now = .ok a2) →
       (a.status, target) ∈ transitionTable) ∧
    ((a.status, target) ∉ transitionTable →
       transition a target reason now =
         .error (.IllegalTransition a.status target)) ∧
    (a.status = Status.completed ∨ a.status = Status.cancelled ∨
       a.status = Status.no_show →
       ∀ t2 r2 n2, ¬ ∃ a2, transition a t2 r2 n2 = Except.ok a2) := by
  refine ⟨?_, ?_, ?_⟩
  · rintro ⟨a2, h⟩
    exact (allowed_iff_mem _ _).1 (transition_ok_elim h).1
  · intro hmem
    refine transition_illegal ?_
    by_contra hne
    exact hmem ((allowed_iff_mem _ _).1 (by simpa using Bool.not_eq_false _ ▸ hne))
  · intro hterm t2 r2 n2
    rintro ⟨a2, h⟩
    have hterm2 : isTerminal a.status = true := by
      rcases hterm with h1 | h1 | h1 <;> rw [h1] <;> rfl
    have := (transition_ok_elim h).1
    rw [terminal_not_allowed _ _ hterm2] at this
    exact Bool.false_ne_true this

/-- Helper: a pair allowed by the table starts from a non-terminal
status. -/
theorem allowed_not_terminal (s t : Status) :
    allowed s t = true → isTerminal s = false := by
  cases s <;> cases t <;> decide

/-- Helper: a successful transition starts from a non-terminal status. -/
theorem transition_ok_not_terminal {a a2 : Appointment} {t : Status}
    {r : Option String} {n : Int} (h : transition a t r n = .ok a2) :
    isTerminal a.status = false :=
  allowed_not_terminal _ _ (transition_ok_elim h).1

/-- Helper: a successful transition preserves the slot. -/
theorem transition_slot {a a2 : Appointment} {t : Status} {r : Option String}
    {n : Int} (h : transition a t r n = .ok a2) : slot a2 = slot a := by
  obtain ⟨-, -, h3⟩ := transition_ok_elim h
  subst h3
  simp [slot, (preSave_fields _ _).1, (preSave_fields _ _).2.1,
    (preSave_fields _ _).2.2.1, (applySideEffects_fields _ _ _ _).1,
    (applySideEffects_fields _ _ _ _).2.1,
    (applySideEffects_fields _ _ _ _).2.2.1]

/-- Helper: a successful transition preserves the priority fields. -/
theorem transition_priority {a a2 : Appointment} {t : Status}
    {r : Option String} {n : Int} (h : transition a t r n = .ok a2) :
    a2.priorityScore = a.priorityScore ∧ a2.isEmergency = a.isEmergency := by
  obtain ⟨-, -, h3⟩ := transition_ok_elim h
  subst h3
  constructor
  · rw [(preSave_fields _ _).2.2.2.1, (applySideEffects_fields _ _ _ _).2.2.2.1]
  · rw [(preSave_fields _ _).2.2.2.2.1, (applySideEffects_fields _ _ _ _).2.2.2.2.1]

/-- Helper: every member of a store after transitionStore is an old member
or the transition image of a non-terminal old member with the same slot. -/
theorem transitionStore_mem {store store2 : List Appointment} {id : String}
    {t : Status} {r : Option String} {n : Int}
    (h : transitionStore store id t r n = .ok store2) :
    ∀ b2 ∈ store2, b2 ∈ store ∨
      ∃ b ∈ store, isTerminal b.status = false ∧ slot b2 = slot b := by
  induction store generalizing store2 with
  | nil => simp [transitionStore] at h
  | cons a rest ih =>
    unfold transitionStore at h
    by_cases hid : a.appointmentId = id
    · simp only [hid, if_true] at h
      rcases htr : transition a t r n with e | a2
      · rw [htr] at h; cases h
      · rw [htr] at h
        cases h
        intro b2 hb2
        rcases List.mem_cons.1 hb2 with h1 | h1
        · subst h1
          exact Or.inr ⟨a, List.mem_cons_self _ _,
            transition_ok_not_terminal htr, transition_slot htr⟩
        · exact Or.inl (List.mem_cons_of_mem _ h1)
    · simp only [hid, if_false] at h
      rcases hrec : transitionStore rest id t r n with e | rest2
      · rw [hrec] at h; cases h
      · rw [hrec] at h
        cases h
        intro b2 hb2
        rcases List.mem_cons.1 hb2 with h1 | h1
        · subst h1; exact Or.inl (List.mem_cons_self _ _)
        · rcases ih hrec b2 h1 with h2 | ⟨b, hb, hbt, hbs⟩
          · exact Or.inl (List.mem_cons_of_mem _ h2)
          · exact Or.inr ⟨b, List.mem_cons_of_mem _ hb, hbt, hbs⟩

/-- Helper: the slot-exclusivity relation between two appointments. -/
theorem slotRel_transfer {x b b2 : Appointment}
    (hrel : isTerminal x.status = true ∨ isTerminal b.status = true ∨
      slot x ≠ slot b)
    (hbt : isTerminal b.status = false) (hbs : slot b2 = slot b) :
    isTerminal x.status = true ∨ isTerminal b2.status = true ∨
      slot x ≠ slot b2 := by
  rcases hrel with h | h | h
  · exact Or.inl h
  · rw [h] at hbt; cases hbt
  · exact Or.inr (Or.inr (by rw [hbs]; exact h))

/-- Helper: transitionStore preserves slot exclusivity. -/
theorem transitionStore_preserves {store store2 : List Appointment}
    {id : String} {t : Status} {r : Option String} {n : Int}
    (hex : SlotExclusive store)
    (h : transitionStore store id t r n = .ok store2) :
    SlotExclusive store2 := by
  induction store generalizing store2 with
  | nil => simp [transitionStore] at h
  | cons a rest ih =>
    unfold SlotExclusive at hex ⊢
    rw [List.pairwise_cons] at hex
    unfold transitionStore at h
    by_cases hid : a.appointmentId = id
    · simp only [hid, if_true] at h
      rcases htr : transition a t r n with e | a2
      · rw [htr] at h; cases h
      · rw [htr] at h
        cases h
        rw [List.pairwise_cons]
        refine ⟨fun b hb => ?_, hex.2⟩
        have hrel := hex.1 b hb
        have hterm := transition_ok_not_terminal htr
        have hslot := transition_slot htr
        rcases hrel with h1 | h1 | h1
        · rw [h1] at hterm; cases hterm
        · exact Or.inr (Or.inl h1)
        · exact Or.inr (Or.inr (by rw [hslot]; exact h1))
    · simp only [hid, if_false] at h
      rcases hrec : transitionStore rest id t r n with e | rest2
      · rw [hrec] at h; cases h
      · rw [hrec] at h
        cases h
        rw [List.pairwise_cons]
        refine ⟨fun b2 hb2 => ?_, ih hex.2 hrec⟩
        rcases transitionStore_mem hrec b2 hb2 with h2 | ⟨b, hb, hbt, hbs⟩
        · exact hex.1 b2 h2
        · exact slotRel_transfer (hex.1 b hb) hbt hbs

/-- Helper: a successful creation decomposes into the conflict guard plus
the inserted document. -/
theorem createAppointment_ok_elim {store : List Appointment} {a : Appointment}
    {now : Int} {store2 : List Appointment}
    (h : createAppointment store a now = .ok store2) :
    slotTaken store a = false ∧
    ∃ doc, store2 = doc :: store ∧ slot doc = slot a ∧
      doc.status = Status.scheduled ∧
      doc.priorityScore = computePriorityScore a.urgencyLevel a.aiTriage ∧
      doc.isEmergency = computeIsEmergency a.urgencyLevel a.aiTriage ∧
      doc.updatedAt = now ∧ doc.scheduling.lastModified = now := by
  unfold createAppointment at h
  rcases h1 : slotTaken store a with _ | _
  · rw [h1] at h
    simp only [Bool.false_eq_true, if_false, Except.ok.injEq] at h
    exact ⟨rfl, _, h.symm, rfl, rfl, rfl, rfl, rfl, rfl⟩
  · rw [h1] at h
    simp at h

/-- C2: creation rejects a candidate whose (doctorId, appointmentDate,
appointmentTime.start) slot is held by a non-terminal appointment with
ConflictError, and slot exclusivity of the store is preserved by creation
and by every status transition. -/
theorem C2_slot_exclusivity (store : List Appointment) (a : Appointment)
    (now : Int) (id : String) (target : Status) (reason : Option String)
    (n2 : Int) :
    ((∃ b ∈ store, isTerminal b.status = false ∧ slot b = slot a) →
       createAppointment store a now = .error .Conflict) ∧
    (SlotExclusive store → ∀ store2,
       createAppointment store a now = .ok store2 → SlotExclusive store2) ∧
    (SlotExclusive store → ∀ store2,
       transitionStore store id target reason n2 = .ok store2 →
       SlotExclusive store2) := by
  refine ⟨?_, ?_, fun hex store2 h => transitionStore_preserves hex h⟩
  · rintro ⟨b, hb, hbt, hbs⟩
    have htaken : slotTaken store a = true := by
      unfold slotTaken
      rw [List.any_eq_true]
      exact ⟨b, hb, by simp [hbt, hbs]⟩
    simp [createAppointment, htaken]
  · intro hex store2 h
    obtain ⟨htaken, doc, hdoc, hslot, -⟩ := createAppointment_ok_elim h
    subst hdoc
    unfold SlotExclusive at hex ⊢
    rw [List.pairwise_cons]
    refine ⟨fun b hb => ?_, hex⟩
    unfold slotTaken at htaken
    rw [List.any_eq_false] at htaken
    have := htaken b hb
    simp only [Bool.and_eq_true, Bool.not_eq_true', decide_eq_true_eq,
      not_and] at this
    by_cases hbt : isTerminal b.status = true
    · exact Or.inr (Or.inl hbt)
    · refine Or.inr (Or.inr ?_)
      rw [hslot]
      intro hcontra
      exact this (by simpa using hbt) hcontra.symm

/-- C3: when both session.startTime and scheduling.bookedAt are present,
calculateWaitTime stores and returns the floored difference in minutes;
when either is absent it returns null and leaves the document unchanged;
recomputation from the same inputs yields the same value. -/
theorem C3_wait_time (a : Appointment) :
    (∀ st b, a.session.startTime = some st → a.scheduling.bookedAt = some b →
       (calculateWaitTime a).1 = some (Int.fdiv (st - b) (1000 * 60)) ∧
       (calculateWaitTime a).2.analytics.waitTime =
         some (Int.fdiv (st - b) (1000 * 60))) ∧
    (a.session.startTime = none ∨ a.scheduling.bookedAt = none →
       (calculateWaitTime a).1 = none ∧ (calculateWaitTime a).2 = a) ∧
    (calculateWaitTime (calculateWaitTime a).2).1 = (calculateWaitTime a).1 := by
  refine ⟨?_, ?_, ?_⟩
  · intro st b h1 h2
    simp [calculateWaitTime, h1, h2]
  · intro h
    rcases h with h | h <;>
      · unfold calculateWaitTime
        rcases h1 : a.session.startTime with _ | st <;>
          rcases h2 : a.scheduling.bookedAt with _ | bk <;>
            simp_all
  · have hs := (calculateWaitTime_fields a).2.2.2.2.2.2.1
    have hb := (calculateWaitTime_fields a).2.2.2.2.2.2.2
    rw [calculateWaitTime_fst, calculateWaitTime_fst, hs, hb]

/-- C5: the pre-save hook stamps updatedAt and scheduling.lastModified with
the current time, and both mutating operations (creation and transition)
apply it, so every mutation refreshes both fields. -/
theorem C5_timestamps (a : Appointment) (now : Int) :
    ((preSave a now).updatedAt = now ∧
     (preSave a now).scheduling.lastModified = now) ∧
    (∀ target reason a2, transition a target reason now = .ok a2 →
       a2.updatedAt = now ∧ a2.scheduling.lastModified = now) ∧
    (∀ store store2, createAppointment store a now = .ok store2 →
       ∃ doc, store2 = doc :: store ∧
         doc.updatedAt = now ∧ doc.scheduling.lastModified = now) := by
  refine ⟨⟨rfl, rfl⟩, ?_, ?_⟩
  · intro target reason a2 h
    obtain ⟨-, -, h3⟩ := transition_ok_elim h
    subst h3
    exact ⟨(preSave_fields _ _).2.2.2.2.2.2.1, (preSave_fields _ _).2.2.2.2.2.2.2⟩
  · intro store store2 h
    obtain ⟨-, doc, hdoc, -, -, -, -, hu, hl⟩ := createAppointment_ok_elim h
    exact ⟨doc, hdoc, hu, hl⟩

/-- C6: a transition to cancelled without a reason always fails (with the
reason-required validation error whenever the pair itself is legal), and a
successful transition to cancelled records the supplied reason and the
cancellation time. -/
theorem C6_cancel_reason (a : Appointment) (now : Int) :
    (allowed a.status Status.cancelled = true →
       transition a Status.cancelled none now =
         .error (.ValidationError "reason required")) ∧
    (∀ a2, transition a Status.cancelled none now ≠ Except.ok a2) ∧
    (∀ r a2, transition a Status.cancelled (some r) now = .ok a2 →
       a2.scheduling.cancellationReason = some r ∧
       a2.scheduling.cancellationTime = some now) := by
  refine ⟨?_, ?_, ?_⟩
  · intro hall
    simp [transition, hall]
  · intro a2 h
    obtain ⟨-, h2, -⟩ := transition_ok_elim h
    exact h2 ⟨Or.inl rfl, rfl⟩
  · intro r a2 h
    obtain ⟨-, -, h3⟩ := transition_ok_elim h
    subst h3
    constructor <;> simp [preSave, applySideEffects]

/-- C4: at booking priorityScore is the base score of the urgency level
(Emergency 100, High 75, Medium 50, Low 25), raised to
aiTriage.triageScore * 10 when aiTriage is present and larger; isEmergency
holds exactly when the urgency is Emergency or the triage priority is
Critical; and no status transition recomputes either field. -/
theorem C4_priority_score (u : Urgency) (tr : AiTriage) (t : Option AiTriage)
    (a : Appointment) (target : Status) (reason : Option String) (now : Int) :
    (baseScore Urgency.Emergency = 100 ∧ baseScore Urgency.High = 75 ∧
     baseScore Urgency.Medium = 50 ∧ baseScore Urgency.Low = 25) ∧
    computePriorityScore u none = baseScore u ∧
    computePriorityScore u (some tr) = max (baseScore u) (tr.triageScore * 10) ∧
    (computeIsEmergency u t = true ↔
       (u = Urgency.Emergency ∨
        ∃ x, t = some x ∧ x.priorityLevel = some PriorityLevel.Critical)) ∧
    (∀ store store2, createAppointment store a now = .ok store2 →
       ∃ doc, store2 = doc :: store ∧
         doc.priorityScore = computePriorityScore a.urgencyLevel a.aiTriage ∧
         doc.isEmergency = computeIsEmergency a.urgencyLevel a.aiTriage) ∧
    (∀ a2, transition a target reason now = .ok a2 →
       a2.priorityScore = a.priorityScore ∧ a2.isEmergency = a.isEmergency) := by
  refine ⟨⟨rfl, rfl, rfl, rfl⟩, rfl, rfl, ?_, ?_, ?_⟩
  · rcases t with _ | x <;> simp [computeIsEmergency]
  · intro store store2 h
    obtain ⟨-, doc, hdoc, -, -, hp, he, -⟩ := createAppointment_ok_elim h
    exact ⟨doc, hdoc, hp, he⟩
  · intro a2 h
    exact transition_priority h

/-- Helper: an empty rangeField result means any present value is within
the range. -/
theorem rangeField_nil {v : Option Rat} {lo hi : Rat} {f : String}
    (h : rangeField v lo hi f = []) :
    ∀ x, v = some x → lo ≤ x ∧ x ≤ hi := by
  intro x hx
  rw [hx] at h
  simp only [rangeField] at h
  by_cases hr : lo ≤ x ∧ x ≤ hi
  · exact hr
  · rw [if_neg hr] at h; cases h

/-- Helper: an out-of-range present value puts the field name into the
rangeField result. -/
theorem rangeField_mem {v : Option Rat} {lo hi : Rat} {f : String}
    (x : Rat) (hx : v = some x) (hr : ¬ (lo ≤ x ∧ x ≤ hi)) :
    f ∈ rangeField v lo hi f := by
  rw [hx]
  simp only [rangeField]
  rw [if_neg hr]
  exact List.mem_singleton.mpr rfl

/-- Helper: the components of the validate error list. -/
theorem validate_eq_nil {c : Candidate} (h : validate c = []) :
    rangeField c.triageScore 0 10 "aiTriage.triageScore" = [] ∧
    rangeField c.aiConfidence 0 1 "aiTriage.aiConfidence" = [] ∧
    rangeField c.patientRating 1 5 "feedback.patientRating" = [] ∧
    rangeField c.doctorRating 1 5 "feedback.doctorRating" = [] ∧
    rangeField c.technicalRating 1 5 "feedback.technicalRating" = [] := by
  unfold validate at h
  simp only [List.append_eq_nil] at h
  exact ⟨h.1.1.1.1.2, h.1.1.1.2, h.1.1.2, h.1.2, h.2⟩

/-- C7: an input missing consultationReason.chiefComplaint always yields a
validation error naming that field, whatever the other fields hold;
validate only reports errors and mutates nothing. -/
theorem C7_chief_complaint_required (c : Candidate)
    (h : c.chiefComplaint = none) :
    "consultationReason.chiefComplaint" ∈ validate c ∧ validate c ≠ [] := by
  have hmem : "consultationReason.chiefComplaint" ∈
      requireField c.chiefComplaint.isSome "consultationReason.chiefComplaint" := by
    rw [h]
    exact List.mem_singleton.mpr rfl
  refine ⟨?_, fun hnil => ?_⟩
  · unfold validate
    exact List.mem_append_left _ (List.mem_append_left _ (List.mem_append_left _
      (List.mem_append_left _ (List.mem_append_left _ (List.mem_append_left _
        (List.mem_append_right _ hmem))))))
  · unfold validate at hnil
    simp only [List.append_eq_nil] at hnil
    rw [hnil.1.1.1.1.1.1.2] at hmem
    cases hmem

/-- C8: validation passes only when every present numeric field lies in its
range (triageScore in [0,10], aiConfidence in [0,1], ratings in [1,5]), and
an out-of-range value yields an error naming that field. -/
theorem C8_numeric_ranges (c : Candidate) :
    (validate c = [] →
       (∀ x, c.triageScore = some x → 0 ≤ x ∧ x ≤ 10) ∧
       (∀ x, c.aiConfidence = some x → 0 ≤ x ∧ x ≤ 1) ∧
       (∀ x, c.patientRating = some x → 1 ≤ x ∧ x ≤ 5) ∧
       (∀ x, c.doctorRating = some x → 1 ≤ x ∧ x ≤ 5) ∧
       (∀ x, c.technicalRating = some x → 1 ≤ x ∧ x ≤ 5)) ∧
    (∀ x, c.triageScore = some x → ¬ (0 ≤ x ∧ x ≤ 10) →
       "aiTriage.triageScore" ∈ validate c) ∧
    (∀ x, c.aiConfidence = some x → ¬ (0 ≤ x ∧ x ≤ 1) →
       "aiTriage.aiConfidence" ∈ validate c) ∧
    (∀ x, c.patientRating = some x → ¬ (1 ≤ x ∧ x ≤ 5) →
       "feedback.patientRating" ∈ validate c) ∧
    (∀ x, c.doctorRating = some x → ¬ (1 ≤ x ∧ x ≤ 5) →
       "feedback.doctorRating" ∈ validate c) ∧
    (∀ x, c.technicalRating = some x → ¬ (1 ≤ x ∧ x ≤ 5) →
       "feedback.technicalRating" ∈ validate c) := by
  refine ⟨?_, ?_, ?_, ?_, ?_, ?_⟩
  · intro h
    obtain ⟨h1, h2, h3, h4, h5⟩ := validate_eq_nil h
    exact ⟨rangeField_nil h1, rangeField_nil h2, rangeField_nil h3,
      rangeField_nil h4, rangeField_nil h5⟩
  · intro x hx hr
    unfold validate
    exact List.mem_append_left _ (List.mem_append_left _ (List.mem_append_left _
      (List.mem_append_left _ (List.mem_append_right _ (rangeField_mem x hx hr)))))
  · intro x hx hr
    unfold validate
    exact List.mem_append_left _ (List.mem_append_left _ (List.mem_append_left _
      (List.mem_append_right _ (rangeField_mem x hx hr))))
  · intro x hx hr
    unfold validate
    exact List.mem_append_left _ (List.mem_append_left _
      (List.mem_append_right _ (rangeField_mem x hx hr)))
  · intro x hx hr
    unfold validate
    exact List.mem_append_left _ (List.mem_append_right _ (rangeField_mem x hx hr))
  · intro x hx hr
    unfold validate
    exact List.mem_append_right _ (rangeField_mem x hx hr)

end SwasthyaSetu

namespace SwasthyaAuth

/-- A user document of the login collection (mongodb.js lines 14-51). -/
structure User where
  id : String
  name : String
  email : String
  role : String
  isActive : Bool
  lastLogin : Option Int
deriving DecidableEq, Repr

/-- The JWT claim payload signed at login (part_000 lines 222-230):
exactly userId, email and role. -/
structure TokenPayload where
  userId : String
  email : String
  role : String
deriving DecidableEq, Repr

/-- A signed token: the payload plus the secret that signed it, standing in
for the JWT signature. -/
structure SignedToken where
  payload : TokenPayload
  signedWith : String
deriving DecidableEq, Repr

/-- The user view of the success body of POST /api/login
(part_000 lines 232-241). -/
structure UserView where
  id : String
  name : String
  email : String
  role : String
deriving DecidableEq, Repr

/-- An HTTP response of the API login endpoint. -/
inductive ApiLoginResponse
  | ok (status : Nat) (token : SignedToken) (user : UserView)
  | err (status : Nat) (error : String)
deriving DecidableEq, Repr

/-- User lookup of the login routes (part_000 lines 203-208): the first
user whose name equals the supplied username or whose email equals its
lowercase form. -/
def findUser (db : List User) (username : String) : Option User :=
  db.find? (fun u => u.name = username || u.email = username.toLower)

/-- POST /api/login (part_000 lines 195-247): rejects missing fields with
400; answers 401 with body error "Invalid credentials." when no user
matches, when the account is inactive, or when the password check fails;
on success updates lastLogin and returns the signed token carrying
(userId, email, role) and the user view. The password comparison (bcrypt)
is abstracted as the function check. -/
def apiLogin (db : List User) (check : User → String → Bool)
    (secret : String) (username password : String) (now : Int) :
    ApiLoginResponse × List User :=
  if username = "" ∨ password = "" then
    (.err 400 "Username/Email and password are required.", db)
  else
    match findUser db username with
    | none => (.err 401 "Invalid credentials.", db)
    | some u =>
        if !u.isActive then
          (.err 401 "Invalid credentials.", db)
        else if !(check u password) then
          (.err 401 "Invalid credentials.", db)
        else
          let u2 := { u with lastLogin := some now }
          let db2 := db.map (fun v => if v.id = u.id then u2 else v)
          (.ok 200
            { payload := { userId := u.id, email := u.email, role := u.role }
              signedWith := secret }
            { id := u.id, name := u.name, email := u.email, role := u.role },
           db2)

/-- A sample active user for concrete evaluations. -/
def userEx : User :=
  { id := "U1", name := "asha", email := "asha@example.com",
    role := "patient", isActive := true, lastLogin := none }

/-- A sample password check standing in for the bcrypt comparison. -/
def checkEx : User → String → Bool := fun _ p => p = "hunter77"

/-- C9: a successful API login returns a token signed with the server
secret whose claim payload carries exactly the userId, email and role of
the authenticated user. -/
theorem C9_token_payload (db : List User) (check : User → String → Bool)
    (secret username password : String) (now : Int) (tok : SignedToken)
    (uv : UserView) (db2 : List User)
    (h : apiLogin db check secret username password now =
      (.ok 200 tok uv, db2)) :
    ∃ u, findUser db username = some u ∧ u.isActive = true ∧
      check u password = true ∧
      tok.payload = { userId := u.id, email := u.email, role := u.role } ∧
      tok.signedWith = secret ∧
      uv = { id := u.id, name := u.name, email := u.email, role := u.role } := by
  unfold apiLogin at h
  split at h
  · simp at h
  · split at h
    · simp at h
    · rename_i u hu
      split at h
      · simp at h
      · split at h
        · simp at h
        · rename_i hact hchk
          simp only [Prod.mk.injEq, ApiLoginResponse.ok.injEq] at h
          obtain ⟨⟨-, htok, huv⟩, -⟩ := h
          refine ⟨u, hu, ?_, ?_, ?_, ?_, ?_⟩
          · simpa using hact
          · simpa using hchk
          · rw [← htok]
          · rw [← htok]
          · rw [← huv]

/-- Failure causes of POST /api/login when both fields are supplied:
unknown user, inactive account, or failed password check. -/
def loginFailCause (db : List User) (check : User → String → Bool)
    (username password : String) : Prop :=
  findUser db username = none ∨
  (∃ u, findUser db username = some u ∧ u.isActive = false) ∨
  (∃ u, findUser db username = some u ∧ u.isActive = true ∧
     check u password = false)

/-- Helper: every failure cause produces the same 401 response and leaves
the user collection untouched. -/
theorem apiLogin_fail_uniform (db : List User) (check : User → String → Bool)
    (secret username password : String) (now : Int)
    (hu : username ≠ "") (hp : password ≠ "")
    (hc : loginFailCause db check username password) :
    (apiLogin db check secret username password now).1 =
      .err 401 "Invalid credentials." ∧
    (apiLogin db check secret username password now).2 = db := by
  rcases hc with h | ⟨u, hu2, ha⟩ | ⟨u, hu2, ha, hch⟩
  · simp [apiLogin, h, hu, hp]
  · simp [apiLogin, hu2, ha, hu, hp]
  · simp [apiLogin, hu2, ha, hch, hu, hp]

/-- C10: any two failing API login requests with both fields supplied,
whatever the cause (unknown user, inactive account, or wrong password),
produce the identical response: 401 with body error Invalid credentials,
so an observer cannot tell the causes apart. -/
theorem C10_login_indistinguishable
    (db1 db2 : List User) (check1 check2 : User → String → Bool)
    (s1 s2 u1 p1 u2 p2 : String) (n1 n2 : Int)
    (h1 : u1 ≠ "" ∧ p1 ≠ "" ∧ loginFailCause db1 check1 u1 p1)
    (h2 : u2 ≠ "" ∧ p2 ≠ "" ∧ loginFailCause db2 check2 u2 p2) :
    (apiLogin db1 check1 s1 u1 p1 n1).1 = (apiLogin db2 check2 s2 u2 p2 n2).1 ∧
    (apiLogin db1 check1 s1 u1 p1 n1).1 = .err 401 "Invalid credentials." := by
  have a1 := apiLogin_fail_uniform db1 check1 s1 u1 p1 n1 h1.1 h1.2.1 h1.2.2
  have a2 := apiLogin_fail_uniform db2 check2 s2 u2 p2 n2 h2.1 h2.2.1 h2.2.2
  exact ⟨a1.1.trans a2.1.symm, a1.1⟩

/-- The token payload issued for the sample user. -/
def payloadEx : TokenPayload :=
  { userId := "U1", email := "asha@example.com", role := "patient" }

/-- The signed token issued for the sample user. -/
def tokEx : SignedToken := { payload := payloadEx, signedWith := "secret" }

/-- The user view returned for the sample user. -/
def uvEx : UserView :=
  { id := "U1", name := "asha", email := "asha@example.com",
    role := "patient" }

/-- Witness for C9 at the sample user with the correct password. -/
theorem C9_token_payload_witness :
    ∃ u, findUser [userEx] "asha" = some u ∧ u.isActive = true ∧
      checkEx u "hunter77" = true ∧
      tokEx.payload = { userId := u.id, email := u.email, role := u.role } ∧
      tokEx.signedWith = "secret" ∧
      uvEx = { id := u.id, name := u.name, email := u.email, role := u.role } :=
  C9_token_payload [userEx] checkEx "secret" "asha" "hunter77" 5
    tokEx uvEx [{ userEx with lastLogin := some 5 }] (by decide)

/-- Witness for C10: an unknown-user failure and a wrong-password failure
give the identical 401 response. -/
theorem C10_login_indistinguishable_witness :
    (apiLogin [] checkEx "s1" "bob" "pw" 1).1 =
      (apiLogin [userEx] checkEx "s2" "asha" "wrong" 2).1 ∧
    (apiLogin [] checkEx "s1" "bob" "pw" 1).1 =
      ApiLoginResponse.err 401 "Invalid credentials." := by
  refine C10_login_indistinguishable [] [userEx] checkEx checkEx "s1" "s2"
    "bob" "pw" "asha" "wrong" 1 2 ⟨?_, ?_, ?_⟩ ⟨?_, ?_, ?_⟩
  · decide
  · decide
  · exact Or.inl rfl
  · decide
  · decide
  · exact Or.inr (Or.inr ⟨userEx, rfl, rfl, rfl⟩)

end SwasthyaAuth


namespace SwasthyaSetu

/-- A sample session with a start one hour after booking. -/
def sessionEx : Session :=
  { startTime := some 3600000, endTime := none, actualDuration := none }

/-- A sample scheduling sub-record booked at epoch time zero. -/
def schedulingEx : Scheduling :=
  { bookedAt := some 0, rescheduledFrom := none, rescheduledTo := none,
    cancellationReason := none, cancellationTime := none, lastModified := 0 }

/-- A sample confirmed appointment. -/
def apptEx : Appointment :=
  { appointmentId := "A1", patientId := "P1", doctorId := "D1",
    appointmentDate := 20250910, timeStart := "14:30", timeEnd := "15:00",
    status := Status.confirmed, urgencyLevel := Urgency.Medium,
    aiTriage := none, session := sessionEx, scheduling := schedulingEx,
    analytics := { waitTime := none }, updatedAt := 0,
    isEmergency := false, priorityScore := 50 }

/-- The sample appointment after completion. -/
def apptDone : Appointment := { apptEx with status := Status.completed }

/-- A second candidate for the same slot by a different patient. -/
def apptEx2 : Appointment :=
  { apptEx with
      appointmentId := "A2", patientId := "P2",
      status := Status.scheduled }

/-- A sample triage result with a critical priority. -/
def triageEx : AiTriage :=
  { triageScore := 9, priorityLevel := some PriorityLevel.Critical }

/-- Witness for C1: a completed appointment rejects a transition back to
confirmed with the IllegalTransition error and admits no transition. -/
theorem C1_transition_table_witness :
    transition apptDone Status.confirmed none 5 =
      .error (.IllegalTransition Status.completed Status.confirmed) ∧
    ¬ ∃ a2, transition apptDone Status.in_progress none 7 = Except.ok a2 := by
  constructor
  · exact (C1_transition_table apptDone Status.confirmed none 5).2.1 (by decide)
  · exact (C1_transition_table apptDone Status.in_progress none 7).2.2
      (Or.inl rfl) Status.in_progress none 7

/-- Witness for C2: rebooking the held slot with a different patient is a
conflict. -/
theorem C2_slot_exclusivity_witness :
    createAppointment [apptEx] apptEx2 9 = Except.error CreateError.Conflict :=
  (C2_slot_exclusivity [apptEx] apptEx2 9 "A1" Status.confirmed none 9).1
    ⟨apptEx, List.mem_singleton.mpr rfl, by decide, rfl⟩

/-- Witness for C3: booking at time zero and starting one hour later gives
a wait time of exactly sixty minutes. -/
theorem C3_wait_time_witness :
    (calculateWaitTime apptEx).1 = some 60 ∧
    (calculateWaitTime apptEx).2.analytics.waitTime = some 60 := by
  have h := (C3_wait_time apptEx).1 3600000 0 rfl rfl
  constructor
  · rw [h.1]; decide
  · rw [h.2]; decide

/-- Witness for C4: a medium-urgency appointment with a critical triage of
score nine gets priority ninety and the emergency flag. -/
theorem C4_priority_score_witness :
    computePriorityScore Urgency.Medium (some triageEx) = 90 ∧
    computeIsEmergency Urgency.Medium (some triageEx) = true := by
  have h := C4_priority_score Urgency.Medium triageEx (some triageEx) apptEx
    Status.confirmed none 0
  constructor
  · rw [h.2.2.1]
    have hle : baseScore Urgency.Medium ≤ triageEx.triageScore * 10 := by
      norm_num [baseScore, triageEx]
    rw [max_eq_right hle]
    norm_num [triageEx]
  · exact h.2.2.2.1.2 (Or.inr ⟨triageEx, rfl, rfl⟩)

/-- Witness for C5: starting the sample consultation at time forty-two
stamps both timestamps with forty-two. -/
theorem C5_timestamps_witness :
    ∃ a2, transition apptEx Status.in_progress none 42 = Except.ok a2 ∧
      a2.updatedAt = 42 ∧ a2.scheduling.lastModified = 42 :=
  ⟨_, rfl, (C5_timestamps apptEx 42).2.1 Status.in_progress none _ rfl⟩

/-- Witness for C6: cancelling the sample appointment without a reason
fails, and cancelling with a reason records it and the time. -/
theorem C6_cancel_reason_witness :
    transition apptEx Status.cancelled none 11 =
      Except.error (TransitionError.ValidationError "reason required") ∧
    ∃ a2, transition apptEx Status.cancelled (some "patient request") 11 =
        Except.ok a2 ∧
      a2.scheduling.cancellationReason = some "patient request" ∧
      a2.scheduling.cancellationTime = some 11 :=
  ⟨(C6_cancel_reason apptEx 11).1 (by decide),
   ⟨_, rfl, (C6_cancel_reason apptEx 11).2.2 "patient request" _ rfl⟩⟩

/-- A candidate with every required field present and in range. -/
def cGood : Candidate :=
  { appointmentId := some "A1", patientId := some "P1",
    doctorId := some "D1", appointmentDate := some 20250910,
    timeStart := some "14:30", timeEnd := some "15:00",
    consultationMode := some "voice", specialty := some "General",
    chiefComplaint := some "fever", paymentAmount := some 200,
    triageScore := none, aiConfidence := none, patientRating := none,
    doctorRating := none, technicalRating := none }

/-- The valid candidate with the chief complaint removed. -/
def cNoChief : Candidate := { cGood with chiefComplaint := none }

/-- The valid candidate with an out-of-range triage score. -/
def cBadScore : Candidate := { cGood with triageScore := some 11 }

/-- Witness for C7: the otherwise valid candidate missing the chief
complaint is rejected naming that field. -/
theorem C7_chief_complaint_required_witness :
    "consultationReason.chiefComplaint" ∈ validate cNoChief ∧
    validate cNoChief ≠ [] :=
  C7_chief_complaint_required cNoChief rfl

/-- Witness for C8: a triage score of eleven is rejected naming the triage
score field. -/
theorem C8_numeric_ranges_witness :
    "aiTriage.triageScore" ∈ validate cBadScore :=
  (C8_numeric_ranges cBadScore).2.1 11 rfl (by decide)

end SwasthyaSetu
